import Mathlib

/-!
Shallow embedding of the Haiku backend of the thread-priority crate
(src/haiku.rs), together with theorems about its priority and policy
conversion functions.

Machine integers are modelled as `Int` (for `libc::c_int` / `i32`) and
`Nat` (for unsigned types), with explicit wrap-around (`% 2^32`, `% 256`)
exactly where the Rust code performs `as` casts or wrapping arithmetic.
Rust division `/` on nonnegative `i32` values truncates toward zero and is
modelled by `Int.tdiv`; `u32` division is `Nat` division. Fallible Rust
functions returning `Result<T, Error>` are modelled as `Except Error T`.
The native syscalls (`set_thread_priority`, `_get_thread_info`) are
modelled by passing their integer return code (and, for get_thread_info,
the priority field of the filled record) as explicit inputs.
-/

namespace Haiku

/-- Cast of a Rust `i32` value (modelled as `Int`) to `u32` (modelled as
`Nat`): reduction modulo 2^32 of the two-complement representation. -/
def i32_as_u32 (x : Int) : Nat := (x % (2 ^ 32 : Int)).toNat

/-- Cast of a Rust `u32` value (modelled as `Nat`) to `i32` (modelled as
`Int`): values with the high bit set become negative. -/
def u32_as_i32 (n : Nat) : Int :=
  if n % 2 ^ 32 < 2 ^ 31 then ((n % 2 ^ 32 : Nat) : Int)
  else ((n % 2 ^ 32 : Nat) : Int) - 2 ^ 32

/-- Minimum thread priority value on Haiku (`HAIKU_MIN_PRIORITY`). -/
def HAIKU_MIN_PRIORITY : Int := 0

/-- Maximum thread priority value on Haiku (`HAIKU_MAX_PRIORITY`). -/
def HAIKU_MAX_PRIORITY : Int := 120

/-- Default/normal thread priority value on Haiku (`HAIKU_NORMAL_PRIORITY`). -/
def HAIKU_NORMAL_PRIORITY : Int := 10

/-- The `ScheduleParams` proxy structure: carries the Haiku native
priority value (`libc::c_int`). -/
structure ScheduleParams where
  sched_priority : Int
deriving Repr, DecidableEq

/-- The normal (non-realtime) scheduling policies; Haiku supports
SCHED_OTHER as the primary scheduling policy. -/
inductive NormalThreadSchedulePolicy
  | Other
deriving Repr, DecidableEq

/-- Realtime scheduling policies. -/
inductive RealtimeThreadSchedulePolicy
  | Fifo
  | RoundRobin
deriving Repr, DecidableEq

/-- Thread schedule policy definition. -/
inductive ThreadSchedulePolicy
  | Normal (p : NormalThreadSchedulePolicy)
  | Realtime (p : RealtimeThreadSchedulePolicy)
deriving Repr, DecidableEq

/-- `NormalThreadSchedulePolicy::to_posix`: SCHED_OTHER is 3 on Haiku. -/
def NormalThreadSchedulePolicy.to_posix : NormalThreadSchedulePolicy → Int
  | .Other => 3

/-- `RealtimeThreadSchedulePolicy::to_posix`: SCHED_FIFO is 1,
SCHED_RR is 2. -/
def RealtimeThreadSchedulePolicy.to_posix : RealtimeThreadSchedulePolicy → Int
  | .Fifo => 1
  | .RoundRobin => 2

/-- `ThreadSchedulePolicy::to_posix`: converts to a POSIX policy value. -/
def ThreadSchedulePolicy.to_posix : ThreadSchedulePolicy → Int
  | .Normal p => p.to_posix
  | .Realtime p => p.to_posix

/-- Modelled from the spec: the error type of the crate root (not part of
the provided sources). Two error kinds are used by this backend: a
priority value out of the allowed range, carrying the valid range, and an
OS-level failure, carrying the native return code. The `Priority` variant
carries a static message and is used by the `ThreadExt` implementation. -/
inductive Error
  | OS (code : Int)
  | PriorityNotInRange (lo hi : Int)
  | Priority (msg : String)
deriving Repr, DecidableEq

/-- `ThreadSchedulePolicy::from_posix`: creates a policy from a POSIX
policy value; unrecognized codes fall back to `Normal(Other)`. -/
def ThreadSchedulePolicy.from_posix (policy : Int) :
    Except Error ThreadSchedulePolicy :=
  if policy = 1 then .ok (.Realtime .Fifo)
  else if policy = 2 then .ok (.Realtime .RoundRobin)
  else if policy = 3 then .ok (.Normal .Other)
  else .ok (.Normal .Other)

/-- Modelled from the spec: the crate-root `ThreadPriorityValue` newtype
(not part of the provided sources), the normalized crossplatform priority,
an unsigned byte-sized value kept in 0..=99 at construction. The range
invariant is supplied as a hypothesis where theorems need it. -/
structure ThreadPriorityValue where
  val : Nat
deriving Repr, DecidableEq

/-- Modelled from the spec: the crate-root `ThreadPriorityOsValue` newtype
(not part of the provided sources), a native priority value, an unsigned
32-bit value consistent with the `p as i32` cast performed in the Haiku
backend. -/
structure ThreadPriorityOsValue where
  val : Nat
deriving Repr, DecidableEq

/-- Modelled from the spec: the crate-root `ThreadPriority` tagged variant
over Min, Max, Crossplatform (0..=99) and Os (native value). -/
inductive ThreadPriority
  | Min
  | Max
  | Crossplatform (v : ThreadPriorityValue)
  | Os (v : ThreadPriorityOsValue)
deriving Repr, DecidableEq

/-- `set_haiku_thread_priority`: issues the native `set_thread_priority`
syscall, whose return code is modelled as the input `r`; a negative return
is surfaced as an OS error, any other return yields success. -/
def set_haiku_thread_priority (r : Int) : Except Error Unit :=
  if r < 0 then .error (.OS r) else .ok ()

/-- `ThreadPriority::min_value_for_policy`: the minimum allowed priority
value for a policy (the policy is ignored on Haiku). -/
def ThreadPriority.min_value_for_policy
    (_policy : ThreadSchedulePolicy) : Except Error Int :=
  .ok HAIKU_MIN_PRIORITY

/-- `ThreadPriority::max_value_for_policy`: the maximum allowed priority
value for a policy (the policy is ignored on Haiku). -/
def ThreadPriority.max_value_for_policy
    (_policy : ThreadSchedulePolicy) : Except Error Int :=
  .ok HAIKU_MAX_PRIORITY

/-- `ThreadPriority::to_allowed_value_for_policy`: checks that the passed
priority value is within the range of allowed values. The matches model
the `?` operator on the two bound lookups, and the condition models
`RangeInclusive::contains`. -/
def ThreadPriority.to_allowed_value_for_policy (priority : Int)
    (policy : ThreadSchedulePolicy) : Except Error Int :=
  match ThreadPriority.min_value_for_policy policy with
  | .error e => .error e
  | .ok min_priority =>
    match ThreadPriority.max_value_for_policy policy with
    | .error e => .error e
    | .ok max_priority =>
      if min_priority ≤ priority ∧ priority ≤ max_priority then .ok priority
      else .error (.PriorityNotInRange min_priority max_priority)

/-- `ThreadPriority::to_posix`: converts the priority to a Haiku
compatible value. Crossplatform values are rescaled from 0..=99 to the
Haiku range by `(p as i32 * HAIKU_MAX_PRIORITY) / 99` (truncating `i32`
division) and then validated; Os values are cast to `i32` and validated. -/
def ThreadPriority.to_posix (self : ThreadPriority)
    (policy : ThreadSchedulePolicy) : Except Error Int :=
  match self with
  | .Min => ThreadPriority.min_value_for_policy policy
  | .Max => ThreadPriority.max_value_for_policy policy
  | .Crossplatform v =>
      let haiku_priority := ((v.val : Int) * HAIKU_MAX_PRIORITY).tdiv 99
      ThreadPriority.to_allowed_value_for_policy haiku_priority policy
  | .Os v =>
      ThreadPriority.to_allowed_value_for_policy (u32_as_i32 v.val) policy

/-- `ThreadPriority::from_posix`: maps the Haiku 0..=120 range back to
0..=99. The native value is cast `as u32`, multiplied by 99 in wrapping
`u32` arithmetic, divided by `HAIKU_MAX_PRIORITY as u32`, truncated
`as u8`, and clamped with `.min(99)`. -/
def ThreadPriority.from_posix (params : ScheduleParams) : ThreadPriority :=
  let crossplatform := i32_as_u32 params.sched_priority * 99 % 2 ^ 32 / 120 % 256
  ThreadPriority.Crossplatform ⟨min crossplatform 99⟩

/-- `set_thread_priority_and_policy`: converts the priority for the given
policy, then issues the native set-priority syscall, whose return code is
modelled as the input `r`. The match models the `?` operator. -/
def set_thread_priority_and_policy (priority : ThreadPriority)
    (policy : ThreadSchedulePolicy) (r : Int) : Except Error Unit :=
  match priority.to_posix policy with
  | .error e => .error e
  | .ok _haiku_priority => set_haiku_thread_priority r

/-- `thread_schedule_policy`: Haiku primarily uses SCHED_OTHER, so the
normal policy is always reported. -/
def thread_schedule_policy : Except Error ThreadSchedulePolicy :=
  .ok (.Normal .Other)

/-- `thread_schedule_policy_param`: issues the native `_get_thread_info`
syscall, whose return code is modelled as the input `r` and the priority
field of the filled record as the input `info_priority`; a non-zero return
is surfaced as an OS error, otherwise the normal policy and the read
priority are returned. -/
def thread_schedule_policy_param (r : Int) (info_priority : Int) :
    Except Error (ThreadSchedulePolicy × ScheduleParams) :=
  if r ≠ 0 then .error (.OS r)
  else .ok (.Normal .Other, ⟨info_priority⟩)

/-- `get_thread_priority`: reads the native schedule parameters (syscall
modelled by `r` and `info_priority`) and converts them back to a
crossplatform priority. The match models the `?` operator. -/
def get_thread_priority (r : Int) (info_priority : Int) :
    Except Error ThreadPriority :=
  match thread_schedule_policy_param r info_priority with
  | .error e => .error e
  | .ok p => .ok (ThreadPriority.from_posix p.2)

end Haiku

namespace Haiku

/-- Decidable equality on results, so that the conversion functions can be
evaluated on concrete inputs inside proofs. -/
instance {ε α : Type} [DecidableEq ε] [DecidableEq α] :
    DecidableEq (Except ε α) := fun x y =>
  match x, y with
  | .ok a, .ok b =>
    if h : a = b then isTrue (by rw [h])
    else isFalse (fun hc => h (Except.ok.inj hc))
  | .ok _, .error _ => isFalse (fun hc => Except.noConfusion hc)
  | .error _, .ok _ => isFalse (fun hc => Except.noConfusion hc)
  | .error e, .error f =>
    if h : e = f then isTrue (by rw [h])
    else isFalse (fun hc => h (Except.error.inj hc))

set_option maxRecDepth 8000

/-- The range check reduces to the fixed Haiku range 0..=120, for every
policy. -/
theorem to_allowed_eq (v : Int) (pol : ThreadSchedulePolicy) :
    ThreadPriority.to_allowed_value_for_policy v pol =
      if 0 ≤ v ∧ v ≤ 120 then .ok v else .error (.PriorityNotInRange 0 120) := rfl

/-- Priority conversion never inspects the policy argument. -/
theorem to_posix_policy_irrel (priority : ThreadPriority)
    (pol pol₂ : ThreadSchedulePolicy) :
    priority.to_posix pol = priority.to_posix pol₂ := by
  cases priority <;> rfl

/-- Evaluation of the Crossplatform branch of to_posix on every value in
0..=99: the result is the rescaled value, accepted by the range check. -/
theorem cross_to_posix_eval : ∀ p < 100,
    ThreadPriority.to_posix (.Crossplatform ⟨p⟩) (.Normal .Other) =
      .ok ((p * 120 / 99 : Nat) : Int) := by decide

/-- Evaluation of from_posix on the rescaled value of every p in 0..=99:
the roundtrip lands within one unit of p. -/
theorem roundtrip_eval : ∀ p < 100,
    ThreadPriority.from_posix ⟨((p * 120 / 99 : Nat) : Int)⟩ =
      .Crossplatform ⟨p * 120 / 99 * 99 / 120⟩ ∧
    (((p * 120 / 99 * 99 / 120 : Nat) : Int) - (p : Int)).natAbs ≤ 1 := by decide

/-- Evaluation of from_posix on every native value in 0..=120. -/
theorem from_posix_eval : ∀ n : Nat, n < 121 →
    ThreadPriority.from_posix ⟨(n : Int)⟩ =
      .Crossplatform ⟨min (n * 99 / 120) 99⟩ := by decide

/-- Claim C1: for every crossplatform priority p in 0..=99 and any schedule
policy, converting Crossplatform(p) to the native Haiku scale via to_posix
and back via from_posix yields a Crossplatform value q with abs (q - p)
at most 1. -/
theorem claim_c1_crossplatform_roundtrip (p : Nat) (hp : p ≤ 99)
    (policy : ThreadSchedulePolicy) :
    ∃ v q, ThreadPriority.to_posix (.Crossplatform ⟨p⟩) policy = .ok v ∧
      ThreadPriority.from_posix ⟨v⟩ = .Crossplatform ⟨q⟩ ∧
      ((q : Int) - (p : Int)).natAbs ≤ 1 := by
  refine ⟨((p * 120 / 99 : Nat) : Int), p * 120 / 99 * 99 / 120, ?_, ?_, ?_⟩
  · rw [to_posix_policy_irrel _ policy (.Normal .Other)]
    exact cross_to_posix_eval p (by omega)
  · exact (roundtrip_eval p (by omega)).1
  · exact (roundtrip_eval p (by omega)).2

/-- Witness for claim C1 at p = 1. -/
theorem claim_c1_witness :
    ∃ v q, ThreadPriority.to_posix (.Crossplatform ⟨1⟩) (.Normal .Other) = .ok v ∧
      ThreadPriority.from_posix ⟨v⟩ = .Crossplatform ⟨q⟩ ∧
      ((q : Int) - ((1 : Nat) : Int)).natAbs ≤ 1 :=
  claim_c1_crossplatform_roundtrip 1 (by decide) (.Normal .Other)

/-- Claim C2: for every p in 0..=99 and every schedule policy, to_posix on
Crossplatform(p) returns Ok of (p * 120) / 99 in integer division; the
rescaled value passes the range validation, so the conversion never fails
and the native value lies within 0..=120. -/
theorem claim_c2_crossplatform_rescale (p : Nat) (hp : p ≤ 99)
    (policy : ThreadSchedulePolicy) :
    ThreadPriority.to_posix (.Crossplatform ⟨p⟩) policy =
      .ok ((p * 120 / 99 : Nat) : Int) ∧
    (0 : Int) ≤ ((p * 120 / 99 : Nat) : Int) ∧
    ((p * 120 / 99 : Nat) : Int) ≤ 120 := by
  refine ⟨?_, Int.natCast_nonneg _, ?_⟩
  · rw [to_posix_policy_irrel _ policy (.Normal .Other)]
    exact cross_to_posix_eval p (by omega)
  · have h : p * 120 / 99 ≤ 11880 / 99 :=
      Nat.div_le_div_right (Nat.mul_le_mul_right 120 hp)
    norm_num at h
    exact_mod_cast h

/-- Witness for claim C2 at p = 99. -/
theorem claim_c2_witness :
    ThreadPriority.to_posix (.Crossplatform ⟨99⟩) (.Realtime .Fifo) =
      .ok ((99 * 120 / 99 : Nat) : Int) ∧
    (0 : Int) ≤ ((99 * 120 / 99 : Nat) : Int) ∧
    ((99 * 120 / 99 : Nat) : Int) ≤ 120 :=
  claim_c2_crossplatform_rescale 99 (by decide) (.Realtime .Fifo)

/-- Claim C3: for every schedule policy, to_posix maps Min to
Ok(HAIKU_MIN_PRIORITY) = Ok(0) and Max to Ok(HAIKU_MAX_PRIORITY) =
Ok(120), the documented native bounds. -/
theorem claim_c3_min_max_bounds (policy : ThreadSchedulePolicy) :
    ThreadPriority.to_posix .Min policy = .ok HAIKU_MIN_PRIORITY ∧
    ThreadPriority.to_posix .Max policy = .ok HAIKU_MAX_PRIORITY ∧
    HAIKU_MIN_PRIORITY = 0 ∧ HAIKU_MAX_PRIORITY = 120 :=
  ⟨rfl, rfl, rfl, rfl⟩

/-- Claim C4: for every native (u32) value v outside 0..=120 and every
policy, set_thread_priority_and_policy with Os(v) returns the
PriorityNotInRange error carrying the valid range 0..=120, whatever the
native syscall would have returned (the syscall return code r never
reaches the result, so no syscall effect occurs on this path). -/
theorem claim_c4_os_out_of_range (v : Nat) (h32 : v < 2 ^ 32)
    (hout : 120 < v) (policy : ThreadSchedulePolicy) (r : Int) :
    set_thread_priority_and_policy (.Os ⟨v⟩) policy r =
      .error (.PriorityNotInRange 0 120) ∧
    ThreadPriority.to_posix (.Os ⟨v⟩) policy =
      .error (.PriorityNotInRange 0 120) := by
  have hcast : ¬((0 : Int) ≤ u32_as_i32 v ∧ u32_as_i32 v ≤ 120) := by
    unfold u32_as_i32
    rw [Nat.mod_eq_of_lt h32]
    split
    · omega
    · omega
  have hto : ThreadPriority.to_posix (.Os ⟨v⟩) policy =
      .error (.PriorityNotInRange 0 120) := by
    show ThreadPriority.to_allowed_value_for_policy (u32_as_i32 v) policy = _
    rw [to_allowed_eq, if_neg hcast]
  refine ⟨?_, hto⟩
  unfold set_thread_priority_and_policy
  rw [hto]

/-- Witness for claim C4 at v = 121. -/
theorem claim_c4_witness :
    set_thread_priority_and_policy (.Os ⟨121⟩) (.Normal .Other) 7 =
      .error (.PriorityNotInRange 0 120) :=
  (claim_c4_os_out_of_range 121 (by decide) (by decide) (.Normal .Other) 7).1

/-- Claim C5: for every ThreadSchedulePolicy value, from_posix after
to_posix returns Ok of the same policy: the mapping Other to 3, Fifo to 1,
RoundRobin to 2 round-trips exactly. -/
theorem claim_c5_policy_roundtrip (policy : ThreadSchedulePolicy) :
    ThreadSchedulePolicy.from_posix policy.to_posix = .ok policy := by
  cases policy with
  | Normal p => cases p; rfl
  | Realtime p => cases p <;> rfl

/-- Claim C6: for every integer code c outside 1, 2, 3, from_posix returns
Ok(Normal(Other)), the default policy, rather than an error; and from_posix
never returns an error for any input. -/
theorem claim_c6_from_posix_total (c : Int) :
    (c ≠ 1 → c ≠ 2 → c ≠ 3 →
      ThreadSchedulePolicy.from_posix c = .ok (.Normal .Other)) ∧
    ∃ policy, ThreadSchedulePolicy.from_posix c = .ok policy := by
  constructor
  · intro h1 h2 h3
    unfold ThreadSchedulePolicy.from_posix
    rw [if_neg h1, if_neg h2, if_neg h3]
  · unfold ThreadSchedulePolicy.from_posix
    split
    · exact ⟨_, rfl⟩
    split
    · exact ⟨_, rfl⟩
    split
    · exact ⟨_, rfl⟩
    · exact ⟨_, rfl⟩

/-- Witness for claim C6 at c = 42. -/
theorem claim_c6_witness :
    ThreadSchedulePolicy.from_posix 42 = .ok (.Normal .Other) :=
  (claim_c6_from_posix_total 42).1 (by decide) (by decide) (by decide)

/-- Claim C7: modelling the native syscall return code r as an input,
set_thread_priority_and_policy surfaces Err(OS(r)) exactly when r < 0
(returning Ok for r at least 0), provided the priority conversion
succeeds; and thread_schedule_policy_param surfaces Err(OS(r)) exactly
when r is non-zero, in each case carrying r unchanged. -/
theorem claim_c7_os_error_propagation (priority : ThreadPriority)
    (policy : ThreadSchedulePolicy) (r pr : Int)
    (h : ∃ v, priority.to_posix policy = .ok v) :
    ((set_thread_priority_and_policy priority policy r = .error (.OS r)) ↔
      r < 0) ∧
    (0 ≤ r → set_thread_priority_and_policy priority policy r = .ok ()) ∧
    ((thread_schedule_policy_param r pr = .error (.OS r)) ↔ r ≠ 0) := by
  obtain ⟨v, hv⟩ := h
  have hset : set_thread_priority_and_policy priority policy r =
      set_haiku_thread_priority r := by
    unfold set_thread_priority_and_policy
    rw [hv]
  refine ⟨?_, ?_, ?_⟩
  · rw [hset]
    unfold set_haiku_thread_priority
    constructor
    · intro he
      by_contra hr
      rw [if_neg hr] at he
      exact Except.noConfusion he
    · intro hr
      rw [if_pos hr]
  · intro hr
    rw [hset]
    unfold set_haiku_thread_priority
    rw [if_neg (by omega)]
  · unfold thread_schedule_policy_param
    constructor
    · intro he hr0
      rw [if_neg (fun hc => hc hr0)] at he
      exact Except.noConfusion he
    · intro hr
      rw [if_pos hr]

/-- Witness for claim C7 at Min priority and r = -1. -/
theorem claim_c7_witness :
    set_thread_priority_and_policy .Min (.Normal .Other) (-1) =
      .error (.OS (-1)) :=
  ((claim_c7_os_error_propagation .Min (.Normal .Other) (-1) 0
      ⟨HAIKU_MIN_PRIORITY, rfl⟩).1).mpr (by decide)

/-- Claim C8: thread_schedule_policy always returns Ok(Normal(Other)), and
whenever thread_schedule_policy_param succeeds, the policy component of
its result is Normal(Other) as well. -/
theorem claim_c8_policy_always_other :
    thread_schedule_policy = .ok (.Normal .Other) ∧
    ∀ (r pr : Int) (policy : ThreadSchedulePolicy) (params : ScheduleParams),
      thread_schedule_policy_param r pr = .ok (policy, params) →
      policy = .Normal .Other := by
  refine ⟨rfl, ?_⟩
  intro r pr policy params h
  unfold thread_schedule_policy_param at h
  split at h
  · exact Except.noConfusion h
  · exact (congrArg Prod.fst (Except.ok.inj h)).symm

/-- Witness for claim C8 at r = 0, info priority 5. -/
theorem claim_c8_witness :
    thread_schedule_policy = .ok (.Normal .Other) ∧
    ThreadSchedulePolicy.Normal .Other = .Normal .Other :=
  ⟨claim_c8_policy_always_other.1,
    claim_c8_policy_always_other.2 0 5 (.Normal .Other) ⟨5⟩ rfl⟩

/-- Claim C9: for every ScheduleParams whose sched_priority lies in
0..=120, from_posix returns Crossplatform(min (sched_priority * 99 / 120)
99), a value at most 99; and from_posix returns the Crossplatform variant
on every input whatsoever. -/
theorem claim_c9_from_posix_crossplatform (sp : Int) (h0 : 0 ≤ sp)
    (h1 : sp ≤ 120) :
    ThreadPriority.from_posix ⟨sp⟩ =
      .Crossplatform ⟨min (sp.toNat * 99 / 120) 99⟩ ∧
    min (sp.toNat * 99 / 120) 99 ≤ 99 ∧
    ∀ params : ScheduleParams, ∃ q,
      ThreadPriority.from_posix params = .Crossplatform q := by
  refine ⟨?_, min_le_right _ _, fun params => ⟨_, rfl⟩⟩
  obtain ⟨n, rfl⟩ : ∃ n : Nat, sp = (n : Int) :=
    ⟨sp.toNat, (Int.toNat_of_nonneg h0).symm⟩
  rw [Int.toNat_natCast]
  exact from_posix_eval n (by omega)

/-- Witness for claim C9 at native priority 60. -/
theorem claim_c9_witness :
    ThreadPriority.from_posix ⟨60⟩ =
      .Crossplatform ⟨min ((60 : Int).toNat * 99 / 120) 99⟩ :=
  (claim_c9_from_posix_crossplatform 60 (by decide) (by decide)).1

/-- Claim C10: the schedule-policy argument never affects priority
conversion or validation: min_value_for_policy, max_value_for_policy,
to_allowed_value_for_policy and to_posix agree on any two policies, and
the allowed native range is 0..=120 for every policy, realtime included. -/
theorem claim_c10_policy_never_matters (v : Int)
    (pol pol₂ : ThreadSchedulePolicy) (priority : ThreadPriority) :
    ThreadPriority.min_value_for_policy pol =
      ThreadPriority.min_value_for_policy pol₂ ∧
    ThreadPriority.max_value_for_policy pol =
      ThreadPriority.max_value_for_policy pol₂ ∧
    ThreadPriority.to_allowed_value_for_policy v pol =
      ThreadPriority.to_allowed_value_for_policy v pol₂ ∧
    priority.to_posix pol = priority.to_posix pol₂ ∧
    ThreadPriority.min_value_for_policy pol = .ok 0 ∧
    ThreadPriority.max_value_for_policy pol = .ok 120 :=
  ⟨rfl, rfl, rfl, to_posix_policy_irrel priority pol pol₂, rfl, rfl⟩

end Haiku
